import Mathlib

/-!
Shallow embedding of the robot_brain cognitive controller
(`src/robot_brain/...`) and verification of its specification.

Conventions of the embedding:
* Python floats are modelled as rationals (`ℚ`); the one genuinely real-valued
  computation (the Euclidean distance in Telemetry_Sync) is modelled in `ℝ`.
* Python `Dict[str, X]` values are modelled as association lists
  `List (String × X)`; dict values whose structure is never inspected by the
  verified code paths (skill params, approval payloads, metrics) are modelled
  as opaque `String`s.
* Python `Optional[str]` truthiness (`if x:` is false for `None` and `""`) is
  modelled by `optStrTruthy`.
* Enum classes become inductives with the same constructor names.

Everything is wrapped in the namespace `RB` (robot brain) so that names such
as `Task` do not clash with the Lean standard library.
-/

namespace RB

/-- `Mode` from `core/enums.py`. -/
inductive Mode
  | SAFE
  | CHARGE
  | EXEC
  | IDLE
deriving DecidableEq, Repr

/-- `DecisionType` from `core/enums.py`. -/
inductive DecisionType
  | CONTINUE
  | REPLAN
  | RETRY
  | SWITCH_TASK
  | ASK_HUMAN
  | FINISH
  | ABORT
deriving DecidableEq, Repr

/-- `UserInterruptType` from `core/enums.py`. -/
inductive UserInterruptType
  | NONE
  | PAUSE
  | STOP
  | NEW_GOAL
deriving DecidableEq, Repr

/-- `ApprovalAction` from `core/enums.py`. -/
inductive ApprovalAction
  | APPROVE
  | EDIT
  | REJECT
deriving DecidableEq, Repr

/-- `SkillStatus` from `core/enums.py`. -/
inductive SkillStatus
  | SUCCESS
  | FAILED
  | CANCELLED
  | RUNNING
  | PENDING
deriving DecidableEq, Repr

/-- `TaskStatus` from `core/enums.py`. -/
inductive TaskStatus
  | PENDING
  | RUNNING
  | COMPLETED
  | FAILED
  | CANCELLED
deriving DecidableEq, Repr

/-- `InterfaceType` from `core/enums.py`. -/
inductive InterfaceType
  | ROS2_ACTION
  | ROS2_SERVICE
  | INTERNAL
deriving DecidableEq, Repr

/-- Skill parameters: a Python `Dict[str, Any]` whose values are never
inspected structurally by the verified code; values are opaque strings. -/
abbrev Params := List (String × String)

/-- `Pose` from `core/models.py`. -/
structure Pose where
  x : ℚ := 0
  y : ℚ := 0
  z : ℚ := 0
  orientation_w : ℚ := 1
  orientation_x : ℚ := 0
  orientation_y : ℚ := 0
  orientation_z : ℚ := 0
deriving DecidableEq, Repr

/-- `Twist` from `core/models.py`. -/
structure Twist where
  linear_x : ℚ := 0
  linear_y : ℚ := 0
  linear_z : ℚ := 0
  angular_x : ℚ := 0
  angular_y : ℚ := 0
  angular_z : ℚ := 0
deriving DecidableEq, Repr

/-- The `target_pose` entry of a task's metadata dict: a sub-dict with keys
`x` and `y`, read with default `0` (`target.get("x", 0)` in
`telemetry_sync.py`). -/
structure TargetPose where
  x : ℚ := 0
  y : ℚ := 0
deriving DecidableEq, Repr

/-- `Task.metadata` is a Python `Dict[str, Any]`; the code reads and writes
the keys modelled here (`task_queue.py` writes `source`,
`original_utterance`, `target`, `sequence`; `telemetry_sync.py` reads
`target_pose`).  `Option` fields model key presence. -/
structure TaskMeta where
  source : String := ""
  original_utterance : String := ""
  target : String := ""
  sequence : Option Nat := none
  target_pose : Option TargetPose := none
deriving DecidableEq, Repr

/-- `Task` from `core/models.py`. -/
structure Task where
  task_id : String
  goal : String
  priority : Int := 0
  deadline : Option ℚ := none
  resources_required : List String := []
  preemptible : Bool := true
  status : TaskStatus := TaskStatus.PENDING
  created_at : ℚ := 0
  metadata : TaskMeta := {}
deriving DecidableEq, Repr

/-- `SkillDef` from `core/models.py`.  The `args_schema` dict is modelled by
its `required` entry (a list of field names), the only part consulted by
`GuardrailsCheckNode._validate_params`. -/
structure SkillDef where
  name : String
  interface_type : InterfaceType := InterfaceType.ROS2_ACTION
  args_schema_required : List String := []
  resources_required : List String := []
  preemptible : Bool := true
  cancel_supported : Bool := true
  timeout_s : ℚ := 60
  error_map : List (String × String) := []
  description : String := ""
deriving DecidableEq, Repr

/-- `RunningSkill` from `core/models.py`. -/
structure RunningSkill where
  goal_id : String
  skill_name : String
  start_time : ℚ
  timeout_s : ℚ
  resources_occupied : List String := []
  params : Params := []
deriving DecidableEq, Repr

/-- `SkillResult` from `core/models.py`. -/
structure SkillResult where
  status : SkillStatus := SkillStatus.SUCCESS
  error_code : String := ""
  error_msg : String := ""
  metrics : List (String × String) := []
deriving DecidableEq, Repr

/-- One entry of `ProposedOps.to_dispatch` / `Decision.ops`: a dict with keys
`skill_name` and `params`, read with defaults `""` and `{}`. -/
structure Dispatch where
  skill_name : String := ""
  params : Params := []
deriving DecidableEq, Repr

/-- `Decision` from `core/models.py`.  `plan_patch` content is opaque. -/
structure Decision where
  type : DecisionType := DecisionType.CONTINUE
  reason : String := ""
  plan_patch : Option (List (String × String)) := none
  ops : List Dispatch := []
deriving DecidableEq, Repr

/-- `ProposedOps` from `core/models.py`.  `approval_payload` is opaque. -/
structure ProposedOps where
  to_cancel : List String := []
  to_dispatch : List Dispatch := []
  to_speak : List String := []
  need_approval : Bool := false
  approval_payload : List (String × String) := []
deriving DecidableEq, Repr

/-- One entry of the `tasks` list of an HCI interrupt payload
(`task_queue.py` reads `type` and `target` with defaults `""`). -/
structure PayloadTask where
  type : String := ""
  target : String := ""
deriving DecidableEq, Repr

/-- `HCIState.interrupt_payload` is a Python dict; the code writes and reads
two shapes: the NEW_GOAL shape (keys `tasks`, `target`, `original`, read by
`TaskQueueNode._create_task_from_interrupt`) and the approval-required shape
written by `HumanApprovalNode._trigger_approval_interrupt`
(`approval_request` models the `payload` entry of the
`type=approval_required` dict).  The empty dict `{}` is all defaults. -/
structure InterruptPayload where
  tasks : List PayloadTask := []
  target : String := ""
  original : String := ""
  approval_request : Option (List (String × String)) := none
deriving DecidableEq, Repr

/-- The `edited_params` entry of an approval response
(`human_approval.py` checks `if "params" in edited_params`). -/
structure EditedParams where
  params : Option Params := none
deriving DecidableEq, Repr

/-- An approval response dict: `action` (the Python code converts the string
via `ApprovalAction(...)`; invalid strings raise and are not modelled) and
optional `edited_params`. -/
structure ApprovalResponse where
  action : ApprovalAction := ApprovalAction.REJECT
  edited_params : EditedParams := {}
deriving DecidableEq, Repr

/-- `HCIState` from `core/state.py`. -/
structure HCIState where
  user_utterance : String := ""
  user_interrupt : UserInterruptType := UserInterruptType.NONE
  interrupt_payload : InterruptPayload := {}
  approval_response : Option ApprovalResponse := none
deriving DecidableEq, Repr

/-- One obstacle dict of `WorldState.obstacles`
(`event_arbitrate.py` reads `collision_risk` with default `False`). -/
structure Obstacle where
  x : ℚ := 0
  y : ℚ := 0
  w : ℚ := 0
  h : ℚ := 0
  collision_risk : Bool := false
deriving DecidableEq, Repr

/-- `WorldState` from `core/state.py`. -/
structure WorldState where
  summary : String := ""
  zones : List String := []
  obstacles : List Obstacle := []
deriving DecidableEq, Repr

/-- `RobotState` from `core/state.py`.  `resources` is the busy-flag dict
(keys like `base_busy`). -/
structure RobotState where
  pose : Pose := {}
  home_pose : Pose := {}
  twist : Twist := {}
  battery_pct : ℚ := 100
  battery_state : String := "FULL"
  resources : List (String × Bool) :=
    [("base_busy", false), ("arm_busy", false), ("gripper_busy", false)]
  distance_to_target : ℚ := 0
deriving DecidableEq, Repr

/-- One entry of `TasksState.inbox`: a goal dict, read by
`TaskQueueNode._create_task_from_goal` with the defaults shown
(`priority` default 50, `preemptible` default `True`, ...).  A `get` with a
default is modelled by storing the default. -/
structure InboxGoal where
  goal : String := ""
  task_id : Option String := none
  priority : Int := 50
  deadline : Option ℚ := none
  resources_required : List String := []
  preemptible : Bool := true
  metadata : TaskMeta := {}
deriving DecidableEq, Repr

/-- `TasksState` from `core/state.py`. -/
structure TasksState where
  inbox : List InboxGoal := []
  queue : List Task := []
  active_task_id : Option String := none
  mode : Mode := Mode.IDLE
  preempt_flag : Bool := false
  preempt_reason : String := ""
deriving DecidableEq, Repr

/-- `SkillsState` from `core/state.py`.  The registry dict is an
association list name → `SkillDef`. -/
structure SkillsState where
  registry : List (String × SkillDef) := []
  running : List RunningSkill := []
  last_result : Option SkillResult := none
deriving DecidableEq, Repr

/-- The observation dict built by R1; its content is never inspected by the
verified code paths, so it is kept opaque. -/
abbrev Observation := List (String × String)

/-- `ReactState` from `core/state.py`. -/
structure ReactState where
  iter : Nat := 0
  observation : Observation := []
  decision : Option Decision := none
  proposed_ops : Option ProposedOps := none
  stop_reason : String := ""
deriving DecidableEq, Repr

/-- One chat message (`role`, `content`, optional `type`). -/
structure Message where
  role : String := ""
  content : String := ""
  type : Option String := none
deriving DecidableEq, Repr

/-- `TraceState` from `core/state.py`; `metrics` values are opaque. -/
structure TraceState where
  log : List String := []
  metrics : List (String × String) := []
deriving DecidableEq, Repr

/-- `BrainState` from `core/state.py`: the aggregate snapshot. -/
structure BrainState where
  messages : List Message := []
  hci : HCIState := {}
  world : WorldState := {}
  robot : RobotState := {}
  tasks : TasksState := {}
  skills : SkillsState := {}
  react : ReactState := {}
  trace : TraceState := {}
deriving DecidableEq, Repr

/-- Python truthiness of an `Optional[str]`: `None` and `""` are falsy. -/
def optStrTruthy : Option String → Bool
  | none => false
  | some s => s ≠ ""

/-- First-match lookup in an association list (Python dict access). -/
def lookupVal {β : Type} : List (String × β) → String → Option β
  | [], _ => none
  | (k', v) :: rest, k => if k' = k then some v else lookupVal rest k

/-- `d.get(k, False)` on a bool-valued dict. -/
def getBoolD (l : List (String × Bool)) (k : String) : Bool :=
  (lookupVal l k).getD false

/-- Dict assignment `d[k] = v`: replace the first binding of `k`, or append. -/
def setVal : List (String × Bool) → String → Bool → List (String × Bool)
  | [], k, v => [(k, v)]
  | (k', v') :: rest, k, v =>
      if k' = k then (k, v) :: rest else (k', v') :: setVal rest k v

/-- Union of the `resources_occupied` of all running skills (the `occupied`
set in `guardrails_check.py` / `dispatch_skills.py`, modelled as a list). -/
def occupiedResources (running : List RunningSkill) : List String :=
  running.foldl (fun acc sk => acc ++ sk.resources_occupied) []

/-- Python `needle in haystack` on strings. -/
def containsSub (hay needle : String) : Bool :=
  decide (needle.toList <:+: hay.toList)

/-- The literal `0.5` of the Python sources (the goal-distance threshold),
written in lowest terms directly so that kernel reduction of comparisons
does not go through `Nat.gcd`. -/
def ratHalf : ℚ := Rat.mk' 1 2 (by decide) (Nat.coprime_one_left 2)

/-- Truthiness of `s and s.strip()` (K4 step 3.5): `strip` removes leading
and trailing whitespace, so the stripped string is nonempty exactly when
some character of `s` is not whitespace. -/
def hasNonWhitespace (s : String) : Bool :=
  s.toList.any (fun c => !c.isWhitespace)

/-! ## K4 Event Arbitrate (`service/kernel/event_arbitrate.py`) -/

/-- `EventArbitrateNode.BATTERY_LOW_THRESHOLD`. -/
def BATTERY_LOW_THRESHOLD : ℚ := 20

/-- `EventArbitrateNode.BATTERY_CRITICAL_THRESHOLD`. -/
def BATTERY_CRITICAL_THRESHOLD : ℚ := 10

/-- `EventArbitrateNode._check_safety_event`: first collision-risk obstacles,
then critical battery; returns `""` when no safety event. -/
def checkSafetyEvent (s : BrainState) : String :=
  if s.world.obstacles.any (fun o => o.collision_risk) then "collision_risk"
  else if s.robot.battery_pct < BATTERY_CRITICAL_THRESHOLD then "battery_critical"
  else ""

/-- `EventArbitrateNode._check_battery_event`.  The Python code interpolates
the battery percentage (`low_battery_{pct:.1f}%`); the numeric formatting is
elided since no caller inspects the string. -/
def checkBatteryEvent (s : BrainState) : String :=
  if s.robot.battery_pct < BATTERY_LOW_THRESHOLD then "low_battery" else ""

/-- `EventArbitrateNode._arbitrate`: mode, preempt flag and preempt reason.
The Python `if user_interrupt:` guard followed by an `if/elif/elif` over the
three non-NONE constructors is rendered as a `match`; the `NONE` case falls
through to the utterance / task / idle checks exactly as the Python does. -/
def arbitrate (s : BrainState) : Mode × Bool × String :=
  if checkSafetyEvent s ≠ "" then
    (Mode.SAFE, true, "SAFETY: " ++ checkSafetyEvent s)
  else if checkBatteryEvent s ≠ "" then
    (Mode.CHARGE, true, "BATTERY: " ++ checkBatteryEvent s)
  else
    match s.hci.user_interrupt with
    | UserInterruptType.STOP => (Mode.IDLE, true, "USER: stop command")
    | UserInterruptType.PAUSE => (Mode.IDLE, false, "USER: pause command")
    | UserInterruptType.NEW_GOAL =>
        (Mode.EXEC, !s.skills.running.isEmpty, "USER: new goal")
    | UserInterruptType.NONE =>
        if hasNonWhitespace s.hci.user_utterance then
          (Mode.EXEC, !s.skills.running.isEmpty,
            "USER: utterance present (llm_handle)")
        else if optStrTruthy s.tasks.active_task_id || !s.tasks.queue.isEmpty then
          (Mode.EXEC, false, "TASK: active task exists")
        else
          (Mode.IDLE, false, "IDLE: no active task")

/-- `EventArbitrateNode.execute`: writes the arbitration result into
`tasks.mode` / `tasks.preempt_flag` / `tasks.preempt_reason` and appends a
trace line (the Chinese log text is kept, its interpolations elided). -/
def eventArbitrateExecute (s : BrainState) : BrainState :=
  let r := arbitrate s
  { s with
    tasks :=
      { inbox := s.tasks.inbox
        queue := s.tasks.queue
        active_task_id := s.tasks.active_task_id
        mode := r.1
        preempt_flag := r.2.1
        preempt_reason := r.2.2 }
    trace :=
      { s.trace with log := s.trace.log ++ ["[Event_Arbitrate] 模式/抢占/原因: " ++ r.2.2] } }

/-! ## K5 Task Queue (`service/kernel/task_queue.py`)

`uuid`-generated task ids and `time.time()` are modelled by an injected
id supply `freshId : Nat → String` and a clock value `now : ℚ`. -/

/-- `TaskQueueNode.DEFAULT_PRIORITY`. -/
def DEFAULT_PRIORITY : Int := 50

/-- `TaskQueueNode.HIGH_PRIORITY`. -/
def HIGH_PRIORITY : Int := 80

/-- Completion detection: mark the first task in the queue whose id matches
and whose status is RUNNING as COMPLETED; report whether one was found
(the Python loop mutates the matching task and breaks). -/
def markFirstCompleted (tid : String) : List Task → List Task × Bool
  | [] => ([], false)
  | t :: ts =>
      if t.task_id = tid ∧ t.status = TaskStatus.RUNNING then
        ({ t with status := TaskStatus.COMPLETED } :: ts, true)
      else
        let r := markFirstCompleted tid ts
        (t :: r.1, r.2)

/-- `TaskQueueNode._create_task_from_interrupt`: multi-task payloads first
(`enumerate` indices over the full `tasks` list, priority `HIGH - 5*i`),
falling back to the single-`target` shape.  Returns `none` when no task was
created (Python returns `None` for an empty list). -/
def createTaskFromInterrupt (freshId : Nat → String) (now : ℚ)
    (s : BrainState) : Option (List Task) :=
  let payload := s.hci.interrupt_payload
  let multi : List Task :=
    (payload.tasks.enum.filterMap fun ti =>
      if ti.2.type = "navigate" ∧ ti.2.target ≠ "" then
        some
          { task_id := "task_" ++ freshId ti.1
            goal := "navigate_to:" ++ ti.2.target
            priority := HIGH_PRIORITY - 5 * (ti.1 : Int)
            resources_required := ["base"]
            preemptible := true
            status := TaskStatus.PENDING
            created_at := now
            metadata :=
              { source := "user_interrupt"
                original_utterance := payload.original
                target := ti.2.target
                sequence := some ti.1 } }
      else none)
  let tasks_list : List Task :=
    if multi.isEmpty then
      if payload.target ≠ "" then
        [{ task_id := "task_" ++ freshId 0
           goal := "navigate_to:" ++ payload.target
           priority := HIGH_PRIORITY
           resources_required := ["base"]
           preemptible := true
           status := TaskStatus.PENDING
           created_at := now
           metadata :=
             { source := "user_interrupt"
               original_utterance := payload.original
               target := payload.target } }]
      else []
    else multi
  if tasks_list.isEmpty then none else some tasks_list

/-- `TaskQueueNode._create_task_from_goal`: `None` for an empty goal. -/
def createTaskFromGoal (freshId : Nat → String) (now : ℚ) (i : Nat)
    (g : InboxGoal) : Option Task :=
  if g.goal = "" then none
  else
    some
      { task_id := g.task_id.getD ("task_" ++ freshId i)
        goal := g.goal
        priority := g.priority
        deadline := g.deadline
        resources_required := g.resources_required
        preemptible := g.preemptible
        status := TaskStatus.PENDING
        created_at := now
        metadata := g.metadata }

/-- Active-task selection: promote the first PENDING task of the sorted
queue to RUNNING and make it active; when no PENDING task exists the
(falsy) previous id is kept, as in the Python loop. -/
def promoteFirstPending (a : Option String) : List Task → List Task × Option String
  | [] => ([], a)
  | t :: ts =>
      if t.status = TaskStatus.PENDING then
        ({ t with status := TaskStatus.RUNNING } :: ts, some t.task_id)
      else
        let r := promoteFirstPending a ts
        (t :: r.1, r.2)

/-- Insert a task into a priority-descending sorted list, before the first
task of equal or lower priority.  Used from the right end of the list, this
keeps earlier elements first among equal priorities. -/
def insertDesc (t : Task) : List Task → List Task
  | [] => [t]
  | u :: us =>
      if u.priority ≤ t.priority then t :: u :: us else u :: insertDesc t us

/-- `new_queue.sort(key=lambda t: -t.priority)`: Python's sort is stable and
a stable sort's result is uniquely determined by the key ordering, so it is
modelled by stable insertion sort (higher priority first, ties in original
order). -/
def sortByPriorityDesc (l : List Task) : List Task :=
  l.foldr insertDesc []

/-- `TaskQueueNode.execute`: completion detection, NEW_GOAL folding, inbox
drain, priority sort, active-task selection, and the final mode write
(`if active_task_id: new_mode = Mode.EXEC`). -/
def taskQueueExecute (freshId : Nat → String) (now : ℚ)
    (s : BrainState) : BrainState :=
  -- completion detection
  let step1 : List Task × Option String :=
    if optStrTruthy s.tasks.active_task_id ∧ s.robot.distance_to_target < ratHalf then
      let r := markFirstCompleted (s.tasks.active_task_id.getD "") s.tasks.queue
      (r.1, if r.2 then none else s.tasks.active_task_id)
    else (s.tasks.queue, s.tasks.active_task_id)
  -- NEW_GOAL folding: user interrupt replaces queue and inbox
  let step2 : List Task × List InboxGoal × Option String :=
    if s.hci.user_interrupt = UserInterruptType.NEW_GOAL then
      match createTaskFromInterrupt freshId now s with
      | some ts => (ts, [], none)
      | none => (step1.1, s.tasks.inbox, step1.2)
    else (step1.1, s.tasks.inbox, step1.2)
  -- inbox drain
  let queue3 : List Task :=
    step2.1 ++ step2.2.1.enum.filterMap (fun gi => createTaskFromGoal freshId now gi.1 gi.2)
  -- priority sort
  let queue4 := sortByPriorityDesc queue3
  -- active-task selection
  let step5 : List Task × Option String :=
    if ¬ optStrTruthy step2.2.2 ∧ queue4 ≠ [] then
      promoteFirstPending step2.2.2 queue4
    else (queue4, step2.2.2)
  -- mode upgrade: EXEC whenever an active task exists
  let newMode := if optStrTruthy step5.2 then Mode.EXEC else s.tasks.mode
  { s with
    tasks :=
      { inbox := []
        queue := step5.1
        active_task_id := step5.2
        mode := newMode
        preempt_flag := s.tasks.preempt_flag
        preempt_reason := s.tasks.preempt_reason }
    trace :=
      { s.trace with
        log := s.trace.log ++
          ["[Task_Queue] 队列长度: " ++ toString step5.1.length ++
            ", 活动任务: " ++ (match step5.2 with | none => "None" | some t => t)] } }

/-! ## R4 Guardrails (`service/react/guardrails_check.py`) -/

/-- `GuardrailsCheckNode._validate_params`: first missing required field, or
`none` (the empty-schema early return coincides with an empty required
list). -/
def validateParams (required : List String) (params : Params) : Option String :=
  match required.find? (fun f => (lookupVal params f).isNone) with
  | some f => some ("Missing required field: " ++ f)
  | none => none

/-- `GuardrailsCheckNode._check_resource_conflict`: busy flags first, then
resources occupied by running skills. -/
def checkResourceConflict (required : List String)
    (current_resources : List (String × Bool))
    (running : List RunningSkill) : Option String :=
  match required.find? (fun r => getBoolD current_resources (r ++ "_busy")) with
  | some r => some ("Resource " ++ r ++ " is busy")
  | none =>
      let occupied := occupiedResources running
      match required.find? (fun r => occupied.contains r) with
      | some r => some ("Resource " ++ r ++ " is occupied by running skill")
      | none => none

/-- The loop body of `GuardrailsCheckNode._validate`: returns the kept
dispatches and the recorded errors, in order. -/
def validateDispatches (s : BrainState) : List Dispatch → List Dispatch × List String
  | [] => ([], [])
  | d :: ds =>
      let rest := validateDispatches s ds
      match lookupVal s.skills.registry d.skill_name with
      | none => (rest.1, ("Skill not found: " ++ d.skill_name) :: rest.2)
      | some sd =>
          match validateParams sd.args_schema_required d.params with
          | some perr =>
              (rest.1, ("Invalid params for " ++ d.skill_name ++ ": " ++ perr) :: rest.2)
          | none =>
              match checkResourceConflict sd.resources_required
                  s.robot.resources s.skills.running with
              | some cerr =>
                  (rest.1,
                    ("Resource conflict for " ++ d.skill_name ++ ": " ++ cerr) :: rest.2)
              | none => (d :: rest.1, rest.2)

/-- `GuardrailsCheckNode._validate`: validated ops keep everything except
the filtered dispatch list. -/
def validateOps (s : BrainState) (ops : ProposedOps) : ProposedOps × List String :=
  let r := validateDispatches s ops.to_dispatch
  ({ to_cancel := ops.to_cancel
     to_dispatch := r.1
     to_speak := ops.to_speak
     need_approval := ops.need_approval
     approval_payload := ops.approval_payload }, r.2)

/-- `GuardrailsCheckNode.execute`: with errors, the decision is rewritten to
ASK_HUMAN (more than 2 errors) or REPLAN and `last_result` is set to
FAILED/`GUARDRAILS_FAILED`; without errors the decision is untouched.  The
Python `if not proposed_ops` guard is true only for `None` (a dataclass
instance is always truthy). -/
def guardrailsExecute (s : BrainState) : BrainState :=
  match s.react.proposed_ops with
  | none => s
  | some ops =>
      let v := validateOps s ops
      if v.2 ≠ [] then
        let error_msg := String.intercalate "; " v.2
        { s with
          react :=
            { iter := s.react.iter
              observation := s.react.observation
              decision := some
                { type :=
                    if 2 < v.2.length then DecisionType.ASK_HUMAN
                    else DecisionType.REPLAN
                  reason := "Guardrails check failed: " ++ error_msg
                  ops := [] }
              proposed_ops := some v.1
              stop_reason := s.react.stop_reason }
          skills :=
            { s.skills with
              last_result := some
                { status := SkillStatus.FAILED
                  error_code := "GUARDRAILS_FAILED"
                  error_msg := error_msg } }
          trace :=
            { s.trace with
              log := s.trace.log ++
                ["[Guardrails_Check] 失败: " ++ String.intercalate "; " v.2] } }
      else
        { s with
          react :=
            { iter := s.react.iter
              observation := s.react.observation
              decision := s.react.decision
              proposed_ops := some v.1
              stop_reason := s.react.stop_reason }
          trace := { s.trace with log := s.trace.log ++ ["[Guardrails_Check] 通过"] } }

/-! ## R5 Human Approval (`service/react/human_approval.py`) -/

/-- Python dict merge of the params: keys of `a` (overridden by `b` where
present, in `a`'s order) followed by the new keys of `b`. -/
def dictMerge (a b : Params) : Params :=
  a.map (fun kv => (kv.1, ((lookupVal b kv.1).getD kv.2))) ++
    b.filter (fun kv => (lookupVal a kv.1).isNone)

/-- `HumanApprovalNode._apply_edits`: merge `edited_params["params"]` (when
present) into each dispatch's params; need_approval is cleared. -/
def applyEdits (ops : ProposedOps) (edited : EditedParams) : ProposedOps :=
  { to_cancel := ops.to_cancel
    to_dispatch :=
      ops.to_dispatch.map fun d =>
        { skill_name := d.skill_name
          params :=
            match edited.params with
            | some ep => dictMerge d.params ep
            | none => d.params }
    to_speak := ops.to_speak
    need_approval := false
    approval_payload := [] }

/-- `HumanApprovalNode._handle_approval_response`. -/
def handleApprovalResponse (s : BrainState) (ops : ProposedOps)
    (response : ApprovalResponse) : BrainState :=
  let r : ProposedOps × String :=
    match response.action with
    | ApprovalAction.APPROVE => (ops, "")
    | ApprovalAction.EDIT => (applyEdits ops response.edited_params, "")
    | ApprovalAction.REJECT =>
        ({ to_cancel := ops.to_cancel
           to_dispatch := []
           to_speak := ["操作已被用户拒绝"]
           need_approval := false
           approval_payload := [] }, "user_rejected")
  { s with
    hci :=
      { user_utterance := s.hci.user_utterance
        user_interrupt := s.hci.user_interrupt
        interrupt_payload := {}
        approval_response := none }
    react :=
      { iter := s.react.iter
        observation := s.react.observation
        decision := s.react.decision
        proposed_ops := some r.1
        stop_reason := r.2 }
    trace := { s.trace with log := s.trace.log ++ ["[Human_Approval] 响应已处理"] } }

/-- `HumanApprovalNode._trigger_approval_interrupt`. -/
def triggerApprovalInterrupt (s : BrainState) (ops : ProposedOps) : BrainState :=
  { s with
    hci :=
      { user_utterance := s.hci.user_utterance
        user_interrupt := s.hci.user_interrupt
        interrupt_payload :=
          { tasks := []
            target := ""
            original := ""
            approval_request := some ops.approval_payload }
        approval_response := none }
    react :=
      { iter := s.react.iter
        observation := s.react.observation
        decision := s.react.decision
        proposed_ops := s.react.proposed_ops
        stop_reason := "waiting_for_approval" }
    trace := { s.trace with log := s.trace.log ++ ["[Human_Approval] 触发审批中断"] } }

/-- `HumanApprovalNode.execute`: pass through when no approval is needed;
otherwise handle a present approval response or suspend. -/
def humanApprovalExecute (s : BrainState) : BrainState :=
  match s.react.proposed_ops with
  | none => s
  | some ops =>
      if ops.need_approval then
        match s.hci.approval_response with
        | some response => handleApprovalResponse s ops response
        | none => triggerApprovalInterrupt s ops
      else s

/-! ## R6 Dispatch (`service/react/dispatch_skills.py`)

The injected skill executor is modelled by a goal-id supply
`fresh : Nat → String` (the executor mints a fresh uuid per `dispatch`
call) and a cancel oracle `cancelOk : String → Bool`; the list of
`DispatchCall`s returned alongside the new state is the executor's record
of physical `dispatch` invocations (cf. `MockSkillExecutor._dispatched`).
`DispatchSkillsNode.execute` never takes or consults a checkpointer or any
effect-id ledger. -/

/-- One physical `dispatch` call issued to the skill executor. -/
structure DispatchCall where
  goal_id : String
  skill_name : String
  params : Params
deriving DecidableEq, Repr

/-- The cancel pass: remove successfully cancelled goal-ids from running. -/
def runCancels (cancelOk : String → Bool) (running : List RunningSkill)
    (to_cancel : List String) : List RunningSkill :=
  to_cancel.foldl
    (fun acc gid =>
      if cancelOk gid then acc.filter (fun sk => sk.goal_id ≠ gid) else acc)
    running

/-- The dispatch pass: skip empty skill names, mint a fresh goal id per
executor call, record a `RunningSkill` (timeout and resources from the
registry entry, defaults `60`/`[]` when absent) and the physical call. -/
def runDispatches (fresh : Nat → String) (now : ℚ)
    (registry : List (String × SkillDef)) :
    List Dispatch → Nat → List RunningSkill × List DispatchCall
  | [], _ => ([], [])
  | d :: ds, i =>
      if d.skill_name = "" then runDispatches fresh now registry ds i
      else
        let sd := lookupVal registry d.skill_name
        let timeout_s := match sd with | some sk => sk.timeout_s | none => 60
        let resources := match sd with | some sk => sk.resources_required | none => []
        let gid := "goal_" ++ fresh i
        let rest := runDispatches fresh now registry ds (i + 1)
        ({ goal_id := gid
           skill_name := d.skill_name
           start_time := now
           timeout_s := timeout_s
           resources_occupied := resources
           params := d.params } :: rest.1,
         { goal_id := gid, skill_name := d.skill_name, params := d.params } :: rest.2)

/-- Recompute the busy flags of `base`/`arm`/`gripper` from the remaining
running skills (other keys of the resources dict are preserved). -/
def recomputeResources (resources : List (String × Bool))
    (running : List RunningSkill) : List (String × Bool) :=
  let occupied := occupiedResources running
  ["base", "arm", "gripper"].foldl
    (fun acc r => setVal acc (r ++ "_busy") (occupied.contains r)) resources

/-- `DispatchSkillsNode.execute`: cancels, then dispatches, then the busy
flags; the second component is the list of physical dispatch calls. -/
def dispatchSkillsExecute (fresh : Nat → String) (cancelOk : String → Bool)
    (now : ℚ) (s : BrainState) : BrainState × List DispatchCall :=
  match s.react.proposed_ops with
  | none => (s, [])
  | some ops =>
      let afterCancel := runCancels cancelOk s.skills.running ops.to_cancel
      let disp := runDispatches fresh now s.skills.registry ops.to_dispatch 0
      let newRunning := afterCancel ++ disp.1
      ({ s with
         robot :=
           { s.robot with
             resources := recomputeResources s.robot.resources newRunning }
         skills :=
           { registry := s.skills.registry
             running := newRunning
             last_result := s.skills.last_result }
         trace :=
           { s.trace with
             log := s.trace.log ++
               disp.2.map (fun c => "[Dispatch_Skills] 派发技能: " ++ c.skill_name) } },
       disp.2)

/-! ## Side-effect ledger (`persistence/checkpointer.py`, `MemoryCheckpointer`)

`_executed_side_effects` is a dict thread-id → set of effect ids; the set is
modelled as a list with membership semantics. -/

/-- The `_executed_side_effects` store. -/
abbrev EffectLedger := List (String × List String)

/-- `MemoryCheckpointer.mark_side_effect_executed`. -/
def markSideEffectExecuted (ledger : EffectLedger) (thread_id effect_id : String) :
    EffectLedger :=
  match lookupVal ledger thread_id with
  | some _ =>
      ledger.map fun kv =>
        if kv.1 = thread_id then (kv.1, kv.2 ++ [effect_id]) else kv
  | none => ledger ++ [(thread_id, [effect_id])]

/-- `MemoryCheckpointer.is_side_effect_executed`. -/
def isSideEffectExecuted (ledger : EffectLedger) (thread_id effect_id : String) :
    Bool :=
  ((lookupVal ledger thread_id).getD []).contains effect_id

/-! ## K2 Telemetry Sync distance
(`service/kernel/telemetry_sync.py`, `_calculate_distance_to_target`) -/

/-- `TelemetrySyncNode._calculate_distance_to_target`: `0.0` when there is
no (truthy) active task id; the prior value when the active task is not in
the queue or carries no `target_pose` metadata; otherwise the Euclidean
distance `((dx**2 + dy**2) ** 0.5)`, modelled in `ℝ`. -/
noncomputable def calcDistanceToTarget (robot : RobotState) (s : BrainState) : ℝ :=
  if ¬ optStrTruthy s.tasks.active_task_id then 0
  else
    match s.tasks.queue.find? (fun t => t.task_id = s.tasks.active_task_id.getD "") with
    | none => (robot.distance_to_target : ℝ)
    | some task =>
        match task.metadata.target_pose with
        | none => (robot.distance_to_target : ℝ)
        | some target =>
            Real.sqrt ((((target.x - robot.pose.x) ^ 2 +
              (target.y - robot.pose.y) ^ 2 : ℚ)) : ℝ)

/-! ## R8 Stop-or-Loop (`service/react/stop_or_loop.py`)
and the loop driver (`graph/react_graph.py`, `ReActGraph.run_loop`) -/

/-- `LoopDecision` from `stop_or_loop.py`. -/
inductive LoopDecision
  | CONTINUE
  | EXIT
deriving DecidableEq, Repr

/-- `StopOrLoopNode.MAX_ITERATIONS`. -/
def MAX_ITERATIONS : Nat := 20

/-- `StopOrLoopNode.MAX_CONSECUTIVE_FAILURES`. -/
def MAX_CONSECUTIVE_FAILURES : Nat := 3

/-- `StopOrLoopNode._count_consecutive_failures`: scan the trace log from
the end, counting failure-marker lines and stopping at the first
success-marker line (lines with neither marker are skipped).  The argument
is the already-reversed log. -/
def countFailuresRev : List String → Nat
  | [] => 0
  | line :: rest =>
      if containsSub line "FAILED" || containsSub line "失败" then
        countFailuresRev rest + 1
      else if containsSub line "SUCCESS" || containsSub line "成功" ||
          containsSub line "完成" then 0
      else countFailuresRev rest

/-- `StopOrLoopNode._count_consecutive_failures`. -/
def countConsecutiveFailures (s : BrainState) : Nat :=
  countFailuresRev s.trace.log.reverse

/-- `StopOrLoopNode._evaluate`: the priority-ordered stop conditions.
(Condition 7 of the Python source — close to goal with nothing running —
is a `pass` and is represented by nothing here, exactly as in the code.) -/
def stopOrLoopEvaluate (s : BrainState) : LoopDecision × String :=
  match s.react.decision with
  | some d =>
      if d.type = DecisionType.FINISH then (LoopDecision.EXIT, "task_completed")
      else if d.type = DecisionType.ABORT then (LoopDecision.EXIT, "task_aborted")
      else if d.type = DecisionType.ASK_HUMAN then
        (LoopDecision.EXIT, "need_human_intervention")
      else stopOrLoopEvaluateRest s
  | none => stopOrLoopEvaluateRest s
where
  /-- Conditions 2-6 of `_evaluate`. -/
  stopOrLoopEvaluateRest (s : BrainState) : LoopDecision × String :=
    if s.react.stop_reason = "waiting_for_approval" then
      (LoopDecision.EXIT, "waiting_for_approval")
    else if s.react.stop_reason = "user_rejected" then
      (LoopDecision.EXIT, "user_rejected")
    else if MAX_ITERATIONS ≤ s.react.iter then
      (LoopDecision.EXIT, "max_iterations_reached_" ++ toString MAX_ITERATIONS)
    else if MAX_CONSECUTIVE_FAILURES ≤ countConsecutiveFailures s then
      (LoopDecision.EXIT, "consecutive_failures_" ++ toString (countConsecutiveFailures s))
    else if s.tasks.mode = Mode.SAFE ∨ s.tasks.mode = Mode.CHARGE then
      (LoopDecision.EXIT, "mode_changed_to_" ++
        (match s.tasks.mode with
         | Mode.SAFE => "SAFE"
         | Mode.CHARGE => "CHARGE"
         | Mode.EXEC => "EXEC"
         | Mode.IDLE => "IDLE"))
    else (LoopDecision.CONTINUE, "")

/-- `StopOrLoopNode.should_continue`. -/
def shouldContinue (s : BrainState) : Bool :=
  (stopOrLoopEvaluate s).1 = LoopDecision.CONTINUE

/-- `ReActGraph.run_loop`: `for _ in range(max_iterations): state = run(state);
if not should_continue(state): break`.  The single-pass body `run`
(R1..R8, with the language model and executors injected) is a parameter;
the second component counts the passes performed. -/
def runLoop (run : BrainState → BrainState) : Nat → BrainState → BrainState × Nat
  | 0, s => (s, 0)
  | n + 1, s =>
      let s' := run s
      if shouldContinue s' then
        let r := runLoop run n s'
        (r.1, r.2 + 1)
      else (s', 1)

/-! ## Definitions supporting the claim statements and witnesses -/

/-- The mode/preempt cascade exactly as claim C1 words it, for comparison
with `arbitrate` (the code).  The claim's "non-empty utterance" is read as
the code reads it: non-empty after stripping whitespace. -/
def c1Cascade (s : BrainState) : Mode × Bool :=
  if (∃ o ∈ s.world.obstacles, o.collision_risk = true) ∨
      s.robot.battery_pct < BATTERY_CRITICAL_THRESHOLD then
    (Mode.SAFE, true)
  else if s.robot.battery_pct < BATTERY_LOW_THRESHOLD then (Mode.CHARGE, true)
  else if s.hci.user_interrupt = UserInterruptType.STOP then (Mode.IDLE, true)
  else if s.hci.user_interrupt = UserInterruptType.PAUSE then (Mode.IDLE, false)
  else if s.hci.user_interrupt = UserInterruptType.NEW_GOAL then
    (Mode.EXEC, decide (s.skills.running ≠ []))
  else if hasNonWhitespace s.hci.user_utterance then
    (Mode.EXEC, decide (s.skills.running ≠ []))
  else if optStrTruthy s.tasks.active_task_id = true ∨ s.tasks.queue ≠ [] then
    (Mode.EXEC, false)
  else (Mode.IDLE, false)

/-- A state with a critically low battery and a pending STOP interrupt. -/
def c1WitnessState : BrainState :=
  { robot := { battery_pct := 5 }
    hci := { user_interrupt := UserInterruptType.STOP } }

/-- A dispatch passes all three guardrail checks of
`GuardrailsCheckNode._validate` (existence, required-parameter schema,
resource conflict). -/
def dispatchPasses (s : BrainState) (d : Dispatch) : Bool :=
  match lookupVal s.skills.registry d.skill_name with
  | none => false
  | some sd =>
      (validateParams sd.args_schema_required d.params).isNone &&
      (checkResourceConflict sd.resources_required s.robot.resources
        s.skills.running).isNone

/-- Constant id supply for concrete runs of `taskQueueExecute`. -/
def constId : Nat → String := fun _ => "id"

/-- Counterexample state for C2: K4 arbitrated SAFE, and an active RUNNING
task far from its goal is present. -/
def c2State : BrainState :=
  { robot := { battery_pct := 50, distance_to_target := 5 }
    tasks :=
      { queue := [{ task_id := "t1", goal := "navigate_to:kitchen",
                    priority := 80, status := TaskStatus.RUNNING }]
        active_task_id := some "t1"
        mode := Mode.SAFE } }

/-- The `NavigateToPose` skill definition used in the concrete scenarios:
requires the `base` resource and a `target_x` parameter. -/
def navigateSkillDef : SkillDef :=
  { name := "NavigateToPose"
    args_schema_required := ["target_x"]
    resources_required := ["base"] }

/-- C3: the replayed snapshot -- iteration 1, one proposed `NavigateToPose`
dispatch (its effect id is `session-1:1:0`). -/
def c3State : BrainState :=
  { skills := { registry := [("NavigateToPose", navigateSkillDef)] }
    react :=
      { iter := 1
        proposed_ops := some
          { to_dispatch :=
              [{ skill_name := "NavigateToPose",
                 params := [("target_x", "2"), ("target_y", "2")] }] } } }

/-- C3: a ledger in which the effect id of the proposed dispatch of
`c3State` is already marked executed. -/
def c3Ledger : EffectLedger :=
  markSideEffectExecuted [] "session-1" "session-1:1:0"

/-- C9: two `NavigateToPose` dispatches, both requiring the free `base`. -/
def c9Ops : ProposedOps :=
  { to_dispatch :=
      [{ skill_name := "NavigateToPose", params := [("target_x", "2")] },
       { skill_name := "NavigateToPose", params := [("target_x", "3")] }] }

/-- C9: state with a free `base`, no running skills and the two proposed
navigation dispatches. -/
def c9State : BrainState :=
  { skills := { registry := [("NavigateToPose", navigateSkillDef)] }
    react := { proposed_ops := some c9Ops } }

/-- C5 witness state: one proposed dispatch whose skill is unregistered. -/
def c5State : BrainState :=
  { react :=
      { decision := some { type := DecisionType.CONTINUE }
        proposed_ops := some { to_dispatch := [{ skill_name := "Nope" }] } } }

/-- Approval-pending proposed ops shared by the C7/C10 scenarios. -/
def approvalOps : ProposedOps :=
  { to_dispatch := [{ skill_name := "dock", params := [("x", "1")] }]
    need_approval := true
    approval_payload := [("why", "high risk")] }

/-- C7: the EDIT approval response of the witness scenario. -/
def c7EditResponse : ApprovalResponse :=
  { action := ApprovalAction.EDIT
    edited_params := { params := some [("x", "9"), ("y", "4")] } }

/-- C7 witness state: approval pending and an EDIT response present. -/
def c7State : BrainState :=
  { react := { proposed_ops := some approvalOps }
    hci := { approval_response := some c7EditResponse } }

/-- C10 witness state: approval pending and an APPROVE response present. -/
def c10State : BrainState :=
  { react := { proposed_ops := some approvalOps
               stop_reason := "waiting_for_approval" }
    hci := { approval_response := some { action := ApprovalAction.APPROVE } } }

/-- C6 witness: a pass body that always decides FINISH. -/
def c6FinishRun : BrainState → BrainState :=
  fun s =>
    { s with react := { s.react with decision := some { type := DecisionType.FINISH } } }

/-- C8 witness state: active task `t1` with target pose (2, 2). -/
def c8TargetState : BrainState :=
  { tasks :=
      { queue := [{ task_id := "t1", goal := "navigate_to:kitchen",
                    status := TaskStatus.RUNNING,
                    metadata := { target_pose := some { x := 2, y := 2 } } }]
        active_task_id := some "t1" } }

/-- C8 counterexample: a robot whose prior distance-to-target is 5. -/
def c8Robot : RobotState := { distance_to_target := 5 }

/-- C8 counterexample: a snapshot with no active task. -/
def c8NoTaskState : BrainState := {}

/-! ## Theorems: Claim C1 (K4 mode priority) -/

lemma not_isEmpty_eq_decide_ne {α : Type} [DecidableEq α] (l : List α) :
    (!l.isEmpty) = decide (l ≠ []) := by
  cases l <;> simp

lemma arbitrate_agrees_c1Cascade (s : BrainState) :
    ((arbitrate s).1, (arbitrate s).2.1) = c1Cascade s := by
  have hrw : (∃ o ∈ s.world.obstacles, o.collision_risk = true) ↔
      (s.world.obstacles.any (fun o => o.collision_risk) = true) := by
    simp [List.any_eq_true]
  by_cases hA : s.world.obstacles.any (fun o => o.collision_risk) = true
  · have hs : checkSafetyEvent s = "collision_risk" := by
      unfold checkSafetyEvent; rw [if_pos hA]
    unfold arbitrate c1Cascade
    rw [if_pos (by rw [hs]; intro h; exact absurd h (by decide)),
      if_pos (Or.inl (hrw.mpr hA))]
  · by_cases hB : s.robot.battery_pct < BATTERY_CRITICAL_THRESHOLD
    · have hs : checkSafetyEvent s = "battery_critical" := by
        unfold checkSafetyEvent; rw [if_neg hA, if_pos hB]
      unfold arbitrate c1Cascade
      rw [if_pos (by rw [hs]; intro h; exact absurd h (by decide)),
        if_pos (Or.inr hB)]
    · have hs : checkSafetyEvent s = "" := by
        unfold checkSafetyEvent; rw [if_neg hA, if_neg hB]
      have hnc : ¬ ((∃ o ∈ s.world.obstacles, o.collision_risk = true) ∨
          s.robot.battery_pct < BATTERY_CRITICAL_THRESHOLD) := by
        rintro (h | h)
        · exact hA (hrw.mp h)
        · exact hB h
      unfold arbitrate c1Cascade
      rw [if_neg (by rw [hs]; exact fun h => h rfl), if_neg hnc]
      by_cases hC : s.robot.battery_pct < BATTERY_LOW_THRESHOLD
      · have hb : checkBatteryEvent s = "low_battery" := by
          unfold checkBatteryEvent; rw [if_pos hC]
        rw [if_pos (by rw [hb]; intro h; exact absurd h (by decide)), if_pos hC]
      · have hb : checkBatteryEvent s = "" := by
          unfold checkBatteryEvent; rw [if_neg hC]
        rw [if_neg (by rw [hb]; exact fun h => h rfl), if_neg hC]
        cases hu : s.hci.user_interrupt <;>
          simp only [hu, not_isEmpty_eq_decide_ne] <;>
          split_ifs <;> simp_all [not_isEmpty_eq_decide_ne, List.isEmpty_iff]

lemma arbitrate_battery_critical (s : BrainState)
    (h : s.robot.battery_pct < BATTERY_CRITICAL_THRESHOLD) :
    (arbitrate s).1 = Mode.SAFE ∧ (arbitrate s).2.1 = true := by
  have hs : checkSafetyEvent s ≠ "" := by
    unfold checkSafetyEvent
    split_ifs <;> simp_all
  unfold arbitrate
  rw [if_pos hs]
  exact ⟨rfl, rfl⟩

lemma arbitrate_stop_preempt (s : BrainState)
    (h : s.hci.user_interrupt = UserInterruptType.STOP) :
    (arbitrate s).2.1 = true := by
  unfold arbitrate
  split_ifs <;> simp [h]

/-- Claim C1: for every snapshot, `EventArbitrateNode._arbitrate` selects the
mode and preempt flag by the fixed priority cascade of spec section 4.4
(safety, battery, STOP, PAUSE, NEW_GOAL, utterance, task, idle), with the
preempt flag of the NEW_GOAL and utterance cases true exactly when some
skill is running; in particular a critically low battery wins over any user
interrupt (mode SAFE, preempt true) and a STOP interrupt always yields
preempt = true. -/
theorem c1_event_arbitrate_priority (s : BrainState) :
    ((arbitrate s).1, (arbitrate s).2.1) = c1Cascade s ∧
    (s.robot.battery_pct < BATTERY_CRITICAL_THRESHOLD →
      (arbitrate s).1 = Mode.SAFE ∧ (arbitrate s).2.1 = true) ∧
    (s.hci.user_interrupt = UserInterruptType.STOP → (arbitrate s).2.1 = true) :=
  ⟨arbitrate_agrees_c1Cascade s, arbitrate_battery_critical s,
    arbitrate_stop_preempt s⟩

/-- Witness for C1: at a concrete snapshot with battery 5% and a STOP
interrupt, the battery-critical and STOP corollaries apply. -/
theorem c1_event_arbitrate_priority_witness :
    ((arbitrate c1WitnessState).1 = Mode.SAFE ∧
      (arbitrate c1WitnessState).2.1 = true) ∧
    (arbitrate c1WitnessState).2.1 = true :=
  ⟨(c1_event_arbitrate_priority c1WitnessState).2.1 (by decide),
    (c1_event_arbitrate_priority c1WitnessState).2.2 (by decide)⟩

/-! ## Theorems: Claim C2 (K5 mode upgrade) -/

/-- Counterexample to C2 as stated: at `c2State` the mode computed by K4 was
SAFE (not IDLE) and an active task exists after task selection, yet
`TaskQueueNode.execute` changes the mode (to EXEC) instead of leaving K4's
mode unchanged. -/
theorem c2_counterexample :
    c2State.tasks.mode = Mode.SAFE ∧
    (taskQueueExecute constId 0 c2State).tasks.active_task_id = some "t1" ∧
    (taskQueueExecute constId 0 c2State).tasks.mode = Mode.EXEC ∧
    (taskQueueExecute constId 0 c2State).tasks.mode ≠ c2State.tasks.mode := by
  exact ⟨rfl, by decide, by decide, by decide⟩

lemma taskQueueExecute_mode_eq (freshId : Nat → String) (now : ℚ)
    (s : BrainState) :
    (taskQueueExecute freshId now s).tasks.mode =
      (if optStrTruthy (taskQueueExecute freshId now s).tasks.active_task_id
        then Mode.EXEC else s.tasks.mode) :=
  rfl

/-- Claim C2 (amended): `TaskQueueNode.execute` sets the mode to EXEC
whenever an active task exists after task selection -- regardless of the
mode K4 computed, including SAFE and CHARGE -- and leaves K4's mode
unchanged exactly when no (truthy) active task exists afterwards. -/
theorem c2_task_queue_mode_upgrade (freshId : Nat → String) (now : ℚ)
    (s : BrainState) :
    (optStrTruthy (taskQueueExecute freshId now s).tasks.active_task_id = true →
      (taskQueueExecute freshId now s).tasks.mode = Mode.EXEC) ∧
    (optStrTruthy (taskQueueExecute freshId now s).tasks.active_task_id = false →
      (taskQueueExecute freshId now s).tasks.mode = s.tasks.mode) := by
  constructor <;> intro h <;> rw [taskQueueExecute_mode_eq, h] <;> simp

/-- Witness for the amended C2 at the concrete `c2State`. -/
theorem c2_task_queue_mode_upgrade_witness :
    (taskQueueExecute constId 0 c2State).tasks.mode = Mode.EXEC :=
  (c2_task_queue_mode_upgrade constId 0 c2State).1 (by decide)

/-! ## Theorems: Claim C3 (idempotent dispatch) -/

/-- Claim C3 is violated by the code: `DispatchSkillsNode.execute` takes no
checkpointer and consults no effect-id ledger, so replaying the checkpointed
snapshot `c3State` -- whose only proposed dispatch has its effect id
`session-1:1:0` already marked executed in `c3Ledger` -- re-issues the
physical dispatch to the executor anyway. -/
theorem c3_replay_reissues_dispatch :
    isSideEffectExecuted c3Ledger "session-1" "session-1:1:0" = true ∧
    ((dispatchSkillsExecute (fun i => toString i) (fun _ => true) 0 c3State).2.map
        (fun c => c.skill_name)) = ["NavigateToPose"] ∧
    (dispatchSkillsExecute (fun i => toString i) (fun _ => true) 0
        c3State).1.skills.running.length = 1 := by
  exact ⟨by decide, by decide, by decide⟩

/-! ## Theorems: guardrails infrastructure, Claims C4 and C5 -/

lemma validateDispatches_fst (s : BrainState) (l : List Dispatch) :
    (validateDispatches s l).1 = l.filter (dispatchPasses s) := by
  induction l with
  | nil => rfl
  | cons d ds ih =>
      unfold validateDispatches
      cases hreg : lookupVal s.skills.registry d.skill_name with
      | none => simp [List.filter_cons, dispatchPasses, hreg, ih]
      | some sd =>
          cases hp : validateParams sd.args_schema_required d.params with
          | some e => simp [List.filter_cons, dispatchPasses, hreg, hp, ih]
          | none =>
              cases hc : checkResourceConflict sd.resources_required
                  s.robot.resources s.skills.running with
              | some e => simp [List.filter_cons, dispatchPasses, hreg, hp, hc, ih]
              | none => simp [List.filter_cons, dispatchPasses, hreg, hp, hc, ih]

lemma validateDispatches_err_length (s : BrainState) (l : List Dispatch) :
    (validateDispatches s l).2.length =
      (l.filter (fun d => !dispatchPasses s d)).length := by
  induction l with
  | nil => rfl
  | cons d ds ih =>
      unfold validateDispatches
      cases hreg : lookupVal s.skills.registry d.skill_name with
      | none => simp [List.filter_cons, dispatchPasses, hreg, ih]
      | some sd =>
          cases hp : validateParams sd.args_schema_required d.params with
          | some e => simp [List.filter_cons, dispatchPasses, hreg, hp, ih]
          | none =>
              cases hc : checkResourceConflict sd.resources_required
                  s.robot.resources s.skills.running with
              | some e => simp [List.filter_cons, dispatchPasses, hreg, hp, hc, ih]
              | none => simp [List.filter_cons, dispatchPasses, hreg, hp, hc, ih]

lemma mem_occupiedResources_aux (init : List String) (l : List RunningSkill)
    (r : String) :
    r ∈ l.foldl (fun acc sk => acc ++ sk.resources_occupied) init ↔
      r ∈ init ∨ ∃ sk ∈ l, r ∈ sk.resources_occupied := by
  induction l generalizing init with
  | nil => simp
  | cons sk l ih => simp [ih, List.mem_append, or_assoc]

lemma mem_occupiedResources (running : List RunningSkill) (r : String) :
    r ∈ occupiedResources running ↔ ∃ sk ∈ running, r ∈ sk.resources_occupied := by
  simp [occupiedResources, mem_occupiedResources_aux]

lemma checkResourceConflict_eq_none_iff (required : List String)
    (resources : List (String × Bool)) (running : List RunningSkill) :
    checkResourceConflict required resources running = none ↔
      ∀ r ∈ required, getBoolD resources (r ++ "_busy") = false ∧
        r ∉ occupiedResources running := by
  unfold checkResourceConflict
  cases h1 : required.find? (fun r => getBoolD resources (r ++ "_busy")) with
  | some r1 =>
      simp only [h1]
      constructor
      · intro h; cases h
      · intro hR
        exfalso
        have hm := List.mem_of_find?_eq_some h1
        have hp := List.find?_some h1
        rw [(hR r1 hm).1] at hp
        cases hp
  | none =>
      cases h2 : required.find?
          (fun r => (occupiedResources running).contains r) with
      | some r2 =>
          simp only [h1, h2]
          constructor
          · intro h; cases h
          · intro hR
            exfalso
            have hm := List.mem_of_find?_eq_some h2
            have hp := List.find?_some h2
            have : r2 ∈ occupiedResources running := by
              simpa [List.elem_iff] using hp
            exact (hR r2 hm).2 this
      | none =>
          simp only [h1, h2]
          constructor
          · intro _ r hr
            have hb := List.find?_eq_none.mp h1 r hr
            have hc := List.find?_eq_none.mp h2 r hr
            refine ⟨by simpa using hb, ?_⟩
            simpa [List.elem_iff] using hc
          · intro _; trivial

lemma guardrailsExecute_of_none (s : BrainState)
    (h : s.react.proposed_ops = none) : guardrailsExecute s = s := by
  unfold guardrailsExecute; rw [h]

lemma guardrailsExecute_proposed (s : BrainState) (ops₀ : ProposedOps)
    (h : s.react.proposed_ops = some ops₀) :
    (guardrailsExecute s).react.proposed_ops = some (validateOps s ops₀).1 := by
  unfold guardrailsExecute
  rw [h]
  dsimp only
  split_ifs <;> rfl

lemma guardrailsExecute_errors (s : BrainState) (ops₀ : ProposedOps)
    (h : s.react.proposed_ops = some ops₀)
    (he : (validateOps s ops₀).2 ≠ []) :
    (guardrailsExecute s).react.decision = some
      { type :=
          if 2 < (validateOps s ops₀).2.length then DecisionType.ASK_HUMAN
          else DecisionType.REPLAN
        reason := "Guardrails check failed: " ++
          String.intercalate "; " (validateOps s ops₀).2
        ops := [] } ∧
    (guardrailsExecute s).skills.last_result = some
      { status := SkillStatus.FAILED
        error_code := "GUARDRAILS_FAILED"
        error_msg := String.intercalate "; " (validateOps s ops₀).2 } := by
  unfold guardrailsExecute
  rw [h]
  dsimp only
  rw [if_pos he]
  exact ⟨rfl, rfl⟩

lemma guardrailsExecute_no_errors (s : BrainState) (ops₀ : ProposedOps)
    (h : s.react.proposed_ops = some ops₀)
    (he : (validateOps s ops₀).2 = []) :
    (guardrailsExecute s).react.decision = s.react.decision ∧
    (guardrailsExecute s).skills.last_result = s.skills.last_result := by
  unfold guardrailsExecute
  rw [h]
  dsimp only
  rw [if_neg (by simp [he])]
  exact ⟨rfl, rfl⟩

/-- Claim C4: after `GuardrailsCheckNode.execute`, every dispatch remaining
in the proposed ops requires only resources that are (a) not flagged busy in
`robot.resources` and (b) not occupied by any running skill, both evaluated
against the state the guardrails stage ran on. -/
theorem c4_resource_safety (s : BrainState) (ops : ProposedOps) (d : Dispatch)
    (sd : SkillDef) (r : String)
    (hops : (guardrailsExecute s).react.proposed_ops = some ops)
    (hd : d ∈ ops.to_dispatch)
    (hsd : lookupVal s.skills.registry d.skill_name = some sd)
    (hr : r ∈ sd.resources_required) :
    getBoolD s.robot.resources (r ++ "_busy") = false ∧
    ∀ sk ∈ s.skills.running, r ∉ sk.resources_occupied := by
  cases hin : s.react.proposed_ops with
  | none =>
      rw [guardrailsExecute_of_none s hin, hin] at hops
      cases hops
  | some ops₀ =>
      rw [guardrailsExecute_proposed s ops₀ hin] at hops
      have hops' : ops = (validateOps s ops₀).1 := by
        cases hops; rfl
      have hd' : d ∈ ops₀.to_dispatch.filter (dispatchPasses s) := by
        rw [hops'] at hd
        simpa [validateOps, validateDispatches_fst] using hd
      have hpass : dispatchPasses s d = true := (List.mem_filter.mp hd').2
      have hnone : checkResourceConflict sd.resources_required
          s.robot.resources s.skills.running = none := by
        unfold dispatchPasses at hpass
        rw [hsd] at hpass
        simp only [Bool.and_eq_true, Option.isNone_iff_eq_none] at hpass
        exact hpass.2
      have hmain := (checkResourceConflict_eq_none_iff _ _ _).mp hnone r hr
      refine ⟨hmain.1, fun sk hsk hmem => ?_⟩
      exact hmain.2 ((mem_occupiedResources _ _).mpr ⟨sk, hsk, hmem⟩)

/-- Witness for C4 at the concrete `c9State`. -/
theorem c4_resource_safety_witness :
    getBoolD c9State.robot.resources ("base" ++ "_busy") = false ∧
    ∀ sk ∈ c9State.skills.running, "base" ∉ sk.resources_occupied :=
  c4_resource_safety c9State c9Ops
    { skill_name := "NavigateToPose", params := [("target_x", "2")] }
    navigateSkillDef "base" (by decide) (by decide) (by decide) (by decide)

/-- Claim C5: in `GuardrailsCheckNode.execute`, each dispatch failing one of
the existence, required-parameter schema, or resource-conflict checks is
dropped (the kept dispatches are exactly those passing all three) and one
error is recorded per dropped dispatch; with at least one error the decision
becomes REPLAN (1-2 errors) or ASK_HUMAN (more than 2) and
`skills.last_result` becomes FAILED with code `GUARDRAILS_FAILED`; with zero
errors the model's decision and `last_result` are unchanged. -/
theorem c5_guardrails_error_handling (s : BrainState) (ops₀ : ProposedOps)
    (h : s.react.proposed_ops = some ops₀) :
    (guardrailsExecute s).react.proposed_ops = some (validateOps s ops₀).1 ∧
    (validateOps s ops₀).1.to_dispatch =
      ops₀.to_dispatch.filter (dispatchPasses s) ∧
    (validateOps s ops₀).2.length =
      (ops₀.to_dispatch.filter (fun d => !dispatchPasses s d)).length ∧
    ((validateOps s ops₀).2 ≠ [] →
      (guardrailsExecute s).react.decision = some
        { type :=
            if 2 < (validateOps s ops₀).2.length then DecisionType.ASK_HUMAN
            else DecisionType.REPLAN
          reason := "Guardrails check failed: " ++
            String.intercalate "; " (validateOps s ops₀).2
          ops := [] } ∧
      (guardrailsExecute s).skills.last_result = some
        { status := SkillStatus.FAILED
          error_code := "GUARDRAILS_FAILED"
          error_msg := String.intercalate "; " (validateOps s ops₀).2 }) ∧
    ((validateOps s ops₀).2 = [] →
      (guardrailsExecute s).react.decision = s.react.decision ∧
      (guardrailsExecute s).skills.last_result = s.skills.last_result) :=
  ⟨guardrailsExecute_proposed s ops₀ h,
    validateDispatches_fst s ops₀.to_dispatch,
    validateDispatches_err_length s ops₀.to_dispatch,
    guardrailsExecute_errors s ops₀ h,
    guardrailsExecute_no_errors s ops₀ h⟩

/-- Witness for C5 at the concrete `c5State` (one unknown-skill dispatch:
one error, decision rewritten to REPLAN, last_result FAILED). -/
theorem c5_guardrails_error_handling_witness :
    (guardrailsExecute c5State).react.decision = some
      { type :=
          if 2 < (validateOps c5State { to_dispatch := [{ skill_name := "Nope" }] }).2.length
          then DecisionType.ASK_HUMAN else DecisionType.REPLAN
        reason := "Guardrails check failed: " ++
          String.intercalate "; "
            (validateOps c5State { to_dispatch := [{ skill_name := "Nope" }] }).2
        ops := [] } ∧
    (guardrailsExecute c5State).skills.last_result = some
      { status := SkillStatus.FAILED
        error_code := "GUARDRAILS_FAILED"
        error_msg := String.intercalate "; "
          (validateOps c5State { to_dispatch := [{ skill_name := "Nope" }] }).2 } :=
  (c5_guardrails_error_handling c5State
      { to_dispatch := [{ skill_name := "Nope" }] } rfl).2.2.2.1 (by decide)

/-! ## Theorems: Claim C6 (loop termination) -/

lemma runLoop_count_le (run : BrainState → BrainState) (n : Nat)
    (s : BrainState) : (runLoop run n s).2 ≤ n := by
  induction n generalizing s with
  | zero => simp [runLoop]
  | succ n ih =>
      unfold runLoop
      dsimp only
      split_ifs
      · exact Nat.succ_le_succ (ih _)
      · exact Nat.succ_le_succ (Nat.zero_le n)

lemma evaluateRest_exit_of_iter (s : BrainState)
    (h : MAX_ITERATIONS ≤ s.react.iter) :
    (stopOrLoopEvaluate.stopOrLoopEvaluateRest s).1 = LoopDecision.EXIT := by
  unfold stopOrLoopEvaluate.stopOrLoopEvaluateRest
  split_ifs <;> rfl

lemma evaluate_exit_of_iter (s : BrainState)
    (h : MAX_ITERATIONS ≤ s.react.iter) :
    (stopOrLoopEvaluate s).1 = LoopDecision.EXIT := by
  unfold stopOrLoopEvaluate
  cases hd : s.react.decision with
  | none => exact evaluateRest_exit_of_iter s h
  | some d =>
      dsimp only
      split_ifs <;> first | rfl | exact evaluateRest_exit_of_iter s h

lemma shouldContinue_false_of_terminal (s : BrainState) (d : Decision)
    (hd : s.react.decision = some d)
    (ht : d.type = DecisionType.FINISH ∨ d.type = DecisionType.ABORT ∨
      d.type = DecisionType.ASK_HUMAN) :
    shouldContinue s = false := by
  unfold shouldContinue stopOrLoopEvaluate
  rw [hd]
  dsimp only
  rcases ht with h | h | h <;> simp [h]

lemma runLoop_stops_after_terminal_pass (run : BrainState → BrainState)
    (n : Nat) (s : BrainState) (d : Decision)
    (hd : (run s).react.decision = some d)
    (ht : d.type = DecisionType.FINISH ∨ d.type = DecisionType.ABORT ∨
      d.type = DecisionType.ASK_HUMAN) :
    runLoop run (n + 1) s = (run s, 1) := by
  unfold runLoop
  dsimp only
  rw [shouldContinue_false_of_terminal (run s) d hd ht]
  simp

/-- Claim C6: the ReAct loop driver performs at most `MAX_ITERATIONS = 20`
passes whatever the pass body does; `StopOrLoopNode._evaluate` yields EXIT
whenever `iter >= 20` (with reason `max_iterations_reached_20` when no
higher-priority stop condition fires first), and the loop stops right after
any pass whose decision is FINISH, ABORT or ASK_HUMAN. -/
theorem c6_loop_termination (run : BrainState → BrainState) (s : BrainState) :
    (runLoop run MAX_ITERATIONS s).2 ≤ MAX_ITERATIONS ∧
    (∀ s' : BrainState, MAX_ITERATIONS ≤ s'.react.iter →
      (stopOrLoopEvaluate s').1 = LoopDecision.EXIT) ∧
    (∀ s' : BrainState, s'.react.decision = none →
      s'.react.stop_reason ≠ "waiting_for_approval" →
      s'.react.stop_reason ≠ "user_rejected" →
      MAX_ITERATIONS ≤ s'.react.iter →
      stopOrLoopEvaluate s' = (LoopDecision.EXIT, "max_iterations_reached_20")) ∧
    (∀ (n : Nat) (s₀ : BrainState) (d : Decision),
      (run s₀).react.decision = some d →
      (d.type = DecisionType.FINISH ∨ d.type = DecisionType.ABORT ∨
        d.type = DecisionType.ASK_HUMAN) →
      runLoop run (n + 1) s₀ = (run s₀, 1)) := by
  refine ⟨runLoop_count_le run MAX_ITERATIONS s, evaluate_exit_of_iter, ?_,
    fun n s₀ d hd ht => runLoop_stops_after_terminal_pass run n s₀ d hd ht⟩
  intro s' hdec hw hr hi
  unfold stopOrLoopEvaluate
  rw [hdec]
  unfold stopOrLoopEvaluate.stopOrLoopEvaluateRest
  rw [if_neg hw, if_neg hr, if_pos hi]
  rfl

/-- Witness for C6: with a pass body that always decides FINISH, a loop
given 20 iterations performs exactly one pass; the concrete iter-20 state
evaluates to EXIT with reason `max_iterations_reached_20`. -/
theorem c6_loop_termination_witness :
    (runLoop c6FinishRun (19 + 1) c8NoTaskState = (c6FinishRun c8NoTaskState, 1)) ∧
    stopOrLoopEvaluate { react := { iter := 20 } } =
      (LoopDecision.EXIT, "max_iterations_reached_20") ∧
    (runLoop c6FinishRun MAX_ITERATIONS c8NoTaskState).2 ≤ MAX_ITERATIONS :=
  ⟨(c6_loop_termination c6FinishRun c8NoTaskState).2.2.2 19 c8NoTaskState
      { type := DecisionType.FINISH } rfl (Or.inl rfl),
    (c6_loop_termination c6FinishRun c8NoTaskState).2.2.1
      { react := { iter := 20 } } rfl (by decide) (by decide) (by decide),
    (c6_loop_termination c6FinishRun c8NoTaskState).1⟩

/-! ## Theorems: Claims C7 and C10 (human approval) -/

lemma humanApprovalExecute_handles (s : BrainState) (ops : ProposedOps)
    (resp : ApprovalResponse)
    (hops : s.react.proposed_ops = some ops)
    (hneed : ops.need_approval = true)
    (hresp : s.hci.approval_response = some resp) :
    humanApprovalExecute s = handleApprovalResponse s ops resp := by
  unfold humanApprovalExecute
  rw [hops]
  dsimp only
  rw [if_pos hneed, hresp]

/-- Claim C7: when Human Approval runs with `need_approval = true` and an
approval response present, the response is consumed in every case; APPROVE
keeps the proposed ops identical and clears the stop reason; EDIT merges
`edited_params.params` into each dispatch's params, changing only the params
subfield, and clears `need_approval`; REJECT empties the dispatches, speaks
a refusal notice, and sets stop reason `user_rejected`. -/
theorem c7_approval_handling (s : BrainState) (ops : ProposedOps)
    (resp : ApprovalResponse)
    (hops : s.react.proposed_ops = some ops)
    (hneed : ops.need_approval = true)
    (hresp : s.hci.approval_response = some resp) :
    (humanApprovalExecute s).hci.approval_response = none ∧
    (resp.action = ApprovalAction.APPROVE →
      (humanApprovalExecute s).react.proposed_ops = some ops ∧
      (humanApprovalExecute s).react.stop_reason = "") ∧
    (resp.action = ApprovalAction.EDIT →
      (humanApprovalExecute s).react.proposed_ops = some
        { to_cancel := ops.to_cancel
          to_dispatch := ops.to_dispatch.map (fun d =>
            { skill_name := d.skill_name
              params :=
                match resp.edited_params.params with
                | some ep => dictMerge d.params ep
                | none => d.params })
          to_speak := ops.to_speak
          need_approval := false
          approval_payload := [] } ∧
      (humanApprovalExecute s).react.stop_reason = "") ∧
    (resp.action = ApprovalAction.REJECT →
      (humanApprovalExecute s).react.proposed_ops = some
        { to_cancel := ops.to_cancel
          to_dispatch := []
          to_speak := ["操作已被用户拒绝"]
          need_approval := false
          approval_payload := [] } ∧
      (humanApprovalExecute s).react.stop_reason = "user_rejected") := by
  rw [humanApprovalExecute_handles s ops resp hops hneed hresp]
  unfold handleApprovalResponse applyEdits
  cases ha : resp.action <;>
    refine ⟨rfl, ?_, ?_, ?_⟩ <;> intro h <;> simp_all

/-- Witness for C7 at `c7State` (an EDIT response): the merged params
replace only the params subfield and the response is consumed. -/
theorem c7_approval_handling_witness :
    (humanApprovalExecute c7State).hci.approval_response = none ∧
    ((humanApprovalExecute c7State).react.proposed_ops = some
      { to_cancel := approvalOps.to_cancel
        to_dispatch := approvalOps.to_dispatch.map (fun d =>
          { skill_name := d.skill_name
            params :=
              match c7EditResponse.edited_params.params with
              | some ep => dictMerge d.params ep
              | none => d.params })
        to_speak := approvalOps.to_speak
        need_approval := false
        approval_payload := [] } ∧
     (humanApprovalExecute c7State).react.stop_reason = "") :=
  ⟨(c7_approval_handling c7State approvalOps c7EditResponse rfl rfl rfl).1,
    (c7_approval_handling c7State approvalOps c7EditResponse rfl rfl rfl).2.2.1 rfl⟩

/-- Claim C10: handling an APPROVE response keeps the proposed ops exactly
as they were, so `need_approval` stays true; only the stop reason is
cleared, while iteration counter, observation, decision, utterance and
interrupt class are untouched, and the approval response and interrupt
payload are reset -- hence running the stage again without a new approval
response re-enters the `waiting_for_approval` suspension. -/
theorem c10_approve_reenters_waiting (s : BrainState) (ops : ProposedOps)
    (resp : ApprovalResponse)
    (hops : s.react.proposed_ops = some ops)
    (hneed : ops.need_approval = true)
    (hresp : s.hci.approval_response = some resp)
    (hact : resp.action = ApprovalAction.APPROVE) :
    (humanApprovalExecute s).react.proposed_ops = some ops ∧
    (humanApprovalExecute s).react.stop_reason = "" ∧
    (humanApprovalExecute s).react.iter = s.react.iter ∧
    (humanApprovalExecute s).react.observation = s.react.observation ∧
    (humanApprovalExecute s).react.decision = s.react.decision ∧
    (humanApprovalExecute s).hci.approval_response = none ∧
    (humanApprovalExecute s).hci.interrupt_payload = {} ∧
    (humanApprovalExecute s).hci.user_utterance = s.hci.user_utterance ∧
    (humanApprovalExecute s).hci.user_interrupt = s.hci.user_interrupt ∧
    (humanApprovalExecute (humanApprovalExecute s)).react.stop_reason =
      "waiting_for_approval" ∧
    (humanApprovalExecute (humanApprovalExecute s)).hci.interrupt_payload =
      { tasks := []
        target := ""
        original := ""
        approval_request := some ops.approval_payload } := by
  have h1 : humanApprovalExecute s = handleApprovalResponse s ops resp :=
    humanApprovalExecute_handles s ops resp hops hneed hresp
  have h2 : handleApprovalResponse s ops resp =
      { s with
        hci :=
          { user_utterance := s.hci.user_utterance
            user_interrupt := s.hci.user_interrupt
            interrupt_payload := {}
            approval_response := none }
        react :=
          { iter := s.react.iter
            observation := s.react.observation
            decision := s.react.decision
            proposed_ops := some ops
            stop_reason := "" }
        trace := { s.trace with
          log := s.trace.log ++ ["[Human_Approval] 响应已处理"] } } := by
    unfold handleApprovalResponse
    rw [hact]
  rw [h1, h2]
  refine ⟨rfl, rfl, rfl, rfl, rfl, rfl, rfl, rfl, rfl, ?_, ?_⟩ <;>
    · unfold humanApprovalExecute triggerApprovalInterrupt
      dsimp only
      rw [if_pos hneed]

/-- Witness for C10 at the concrete `c10State`. -/
theorem c10_approve_reenters_waiting_witness :
    (humanApprovalExecute c10State).react.proposed_ops = some approvalOps ∧
    (humanApprovalExecute (humanApprovalExecute c10State)).react.stop_reason =
      "waiting_for_approval" :=
  ⟨(c10_approve_reenters_waiting c10State approvalOps
      { action := ApprovalAction.APPROVE } rfl rfl rfl rfl).1,
    (c10_approve_reenters_waiting c10State approvalOps
      { action := ApprovalAction.APPROVE } rfl rfl rfl rfl).2.2.2.2.2.2.2.2.2.1⟩

/-! ## Theorems: Claim C8 (distance-to-target recomputation) -/

/-- Counterexample to C8 as stated: with no active task and a prior
`distance_to_target` of 5, `_calculate_distance_to_target` returns `0.0`
instead of preserving the prior value. -/
theorem c8_counterexample :
    c8NoTaskState.tasks.active_task_id = none ∧
    c8Robot.distance_to_target = 5 ∧
    calcDistanceToTarget c8Robot c8NoTaskState = 0 ∧
    calcDistanceToTarget c8Robot c8NoTaskState ≠
      (c8Robot.distance_to_target : ℝ) := by
  refine ⟨rfl, rfl, rfl, ?_⟩
  have h : calcDistanceToTarget c8Robot c8NoTaskState = 0 := rfl
  rw [h]
  norm_num [c8Robot]

/-- Claim C8 (amended): `TelemetrySyncNode._calculate_distance_to_target`
returns the Euclidean distance from the robot pose to the active task's
metadata `target_pose` when an active task carrying one is present; it
preserves the prior value when an active task id is present but not found in
the queue or the found task has no `target_pose`; and it returns `0.0`
(rather than the prior value) when no truthy active task id is present. -/
theorem c8_distance_recompute (robot : RobotState) (s : BrainState) :
    (optStrTruthy s.tasks.active_task_id = false →
      calcDistanceToTarget robot s = 0) ∧
    (∀ a : String, s.tasks.active_task_id = some a → a ≠ "" →
      s.tasks.queue.find? (fun t => t.task_id = a) = none →
      calcDistanceToTarget robot s = (robot.distance_to_target : ℝ)) ∧
    (∀ (a : String) (task : Task),
      s.tasks.active_task_id = some a → a ≠ "" →
      s.tasks.queue.find? (fun t => t.task_id = a) = some task →
      task.metadata.target_pose = none →
      calcDistanceToTarget robot s = (robot.distance_to_target : ℝ)) ∧
    (∀ (a : String) (task : Task) (tp : TargetPose),
      s.tasks.active_task_id = some a → a ≠ "" →
      s.tasks.queue.find? (fun t => t.task_id = a) = some task →
      task.metadata.target_pose = some tp →
      calcDistanceToTarget robot s =
        Real.sqrt (((tp.x - robot.pose.x) ^ 2 +
          (tp.y - robot.pose.y) ^ 2 : ℚ) : ℝ)) := by
  refine ⟨?_, ?_, ?_, ?_⟩
  · intro h
    unfold calcDistanceToTarget
    rw [if_pos (by simp [h])]
  · intro a ha hne hfind
    unfold calcDistanceToTarget
    rw [if_neg (by simp [optStrTruthy, ha, hne])]
    rw [ha]
    simp only [Option.getD_some, hfind]
  · intro a task ha hne hfind hm
    unfold calcDistanceToTarget
    rw [if_neg (by simp [optStrTruthy, ha, hne])]
    rw [ha]
    simp only [Option.getD_some, hfind, hm]
  · intro a task tp ha hne hfind hm
    unfold calcDistanceToTarget
    rw [if_neg (by simp [optStrTruthy, ha, hne])]
    rw [ha]
    simp only [Option.getD_some, hfind, hm]

/-- Witness for the amended C8: with active task `t1` at target (2, 2) and
the robot at the origin, the recomputed distance is `sqrt (2^2 + 2^2)`. -/
theorem c8_distance_recompute_witness :
    calcDistanceToTarget c8Robot c8TargetState =
      Real.sqrt ((((2 : ℚ) - c8Robot.pose.x) ^ 2 +
        ((2 : ℚ) - c8Robot.pose.y) ^ 2 : ℚ) : ℝ) :=
  (c8_distance_recompute c8Robot c8TargetState).2.2.2 "t1"
    { task_id := "t1", goal := "navigate_to:kitchen",
      status := TaskStatus.RUNNING,
      metadata := { target_pose := some { x := 2, y := 2 } } }
    { x := 2, y := 2 } rfl (by decide) (by decide) rfl

/-! ## Theorems: Claim C9 (per-dispatch resource check) -/

/-- Claim C9: the R4 resource-conflict check evaluates each dispatch against
the pre-stage busy flags and running list only, not against the other
dispatches of the same batch: in `c9State` the `base` resource is free and
nothing is running, two `NavigateToPose` dispatches both require `base`,
both pass the guardrails unchanged, and R6 then dispatches both (two
physical dispatch calls, two running skills, `base` occupied twice over). -/
theorem c9_batch_conflict_unchecked :
    lookupVal c9State.skills.registry "NavigateToPose" = some navigateSkillDef ∧
    navigateSkillDef.resources_required = ["base"] ∧
    getBoolD c9State.robot.resources "base_busy" = false ∧
    c9State.skills.running = [] ∧
    (guardrailsExecute c9State).react.proposed_ops = some c9Ops ∧
    ((dispatchSkillsExecute (fun i => toString i) (fun _ => true) 0
        (guardrailsExecute c9State)).2.map (fun c => c.skill_name)) =
      ["NavigateToPose", "NavigateToPose"] ∧
    (dispatchSkillsExecute (fun i => toString i) (fun _ => true) 0
        (guardrailsExecute c9State)).1.skills.running.map
      (fun sk => sk.resources_occupied) = [["base"], ["base"]] := by
  exact ⟨rfl, rfl, rfl, rfl, by decide, by decide, by decide⟩

end RB
